import Mathlib

/-!
Shallow embedding of the automatic-message pipeline of the njback repository:
the planned-message store (`auto-message.model.ts`), the dispatcher
(`queue.service.ts`), the consumer (`part_014`, `socket.middleware.ts`),
the planner (`auto-message.service.ts`) and the planning job (`part_013`).
Identifiers (Mongo ObjectIds) are modelled as strings, timestamps as naturals,
and every external outcome (broker publish, store update) as an explicit
parameter, so that each code path is a total function.
-/

/-! ### Planned-message store (`src/models/auto-message.model.ts`) -/

/-- A PlannedMessage document.  Schema defaults: `isQueued=false`, `isSent=false`. -/
structure AutoMessage where
  id : String
  senderId : String
  receiverId : String
  content : String
  sendDate : Nat
  isQueued : Bool
  isSent : Bool
deriving DecidableEq, Repr

/-- Document creation: the schema initializes both status flags to `false`. -/
def mkAutoMessage (id senderId receiverId : String) (content : String) (sendDate : Nat) : AutoMessage :=
  { id := id, senderId := senderId, receiverId := receiverId, content := content,
    sendDate := sendDate, isQueued := false, isSent := false }

/-- The `auto_messages` collection. -/
abbrev AutoMessageStore := List AutoMessage

/-- `AutoMessage.markAsQueued`: `updateMany {_id: {$in: messageIds}} {$set: {isQueued: true}}`. -/
def markAsQueued (store : AutoMessageStore) (messageIds : List String) : AutoMessageStore :=
  store.map fun m => if m.id ∈ messageIds then { m with isQueued := true } else m

/-- `AutoMessage.markAsSent`: `findByIdAndUpdate(messageId, {$set: {isSent: true}}, {new: true})`;
returns the updated store and the updated document (`none` when no document has the id). -/
def markAsSent (store : AutoMessageStore) (messageId : String) :
    AutoMessageStore × Option AutoMessage :=
  (store.map fun m => if m.id = messageId then { m with isSent := true } else m,
   (store.find? fun m => m.id = messageId).map fun m => { m with isSent := true })

/-! ### Dispatcher (`src/services/queue.service.ts`, `QueueService.processBatch`) -/

/-- A pending message row as selected by `findPendingMessages`. -/
structure PendingMessage where
  id : String
  senderId : String
  receiverId : String
  content : String
  sendDate : Nat
deriving DecidableEq, Repr

/-- The broker envelope (`QueueMessageData`). -/
structure QueueMessageData where
  autoMessageId : String
  senderId : String
  receiverId : String
  content : String
  originalSendDate : Nat
  queuedAt : Nat
deriving DecidableEq, Repr

/-- Envelope construction in the first loop of `processBatch`. -/
def buildEnvelope (now : Nat) (m : PendingMessage) : QueueMessageData :=
  { autoMessageId := m.id, senderId := m.senderId, receiverId := m.receiverId,
    content := m.content, originalSendDate := m.sendDate, queuedAt := now }

/-- `QueueProcessingResult` of `processBatch`. -/
structure QueueProcessingResult where
  processed : Nat
  queued : Nat
  failed : Nat
  errors : List String
deriving DecidableEq, Repr

/-- The publish loop of `processBatch`: for the i-th envelope, `pubOk i` tells whether
`rabbitmqConfig.sendToQueue` succeeded.  Counts successes into `queued`, failures into
`failed`, appending an error string per failure. -/
def publishLoop (queueMessages : List QueueMessageData) (pubOk : Nat → Bool) :
    Nat × Nat × List String :=
  (queueMessages.enum.foldl
    (fun acc p =>
      if pubOk p.1 then (acc.1 + 1, acc.2.1, acc.2.2)
      else (acc.1, acc.2.1 + 1, acc.2.2 ++ ["Failed to queue message " ++ p.2.autoMessageId]))
    (0, 0, []))

/-- `QueueService.processBatch`: builds envelopes, publishes them one at a time,
and when `queued > 0` marks `messageIds.slice(0, result.queued)` — the FIRST
`queued` ids of the batch — as queued (`markOk` is the outcome of the store
update; on failure the store is unchanged and an error is appended).
Returns the result, the ids passed to `markAsQueued`, and the updated store. -/
def processBatch (store : AutoMessageStore) (batch : List PendingMessage)
    (now : Nat) (pubOk : Nat → Bool) (markOk : Bool) :
    QueueProcessingResult × List String × AutoMessageStore :=
  let messageIds := batch.map (·.id)
  let queueMessages := batch.map (buildEnvelope now)
  let counts := publishLoop queueMessages pubOk
  let queued := counts.1
  let failed := counts.2.1
  let errors := counts.2.2
  if queued > 0 then
    let successfulIds := messageIds.take queued
    if markOk then
      ({ processed := batch.length, queued := queued, failed := failed, errors := errors },
       successfulIds, markAsQueued store successfulIds)
    else
      ({ processed := batch.length, queued := queued, failed := failed,
         errors := errors ++ ["Failed to update database status"] },
       successfulIds, store)
  else
    ({ processed := batch.length, queued := queued, failed := failed, errors := errors },
     [], store)

/-- Spec-side definition (from the claim's words, for comparison with the code):
the ids of the batch whose envelope was successfully published, i.e. the ids at
the positions where the publish succeeded. -/
def publishedIdsSpec (batch : List PendingMessage) (pubOk : Nat → Bool) : List String :=
  ((batch.enum.filter fun p => pubOk p.1).map fun p => p.2.id)

/-! ### Consumer service (`src/unnamed/part_014`, `MessageConsumerService`) -/

/-- A user document as read by `validateUsers`. -/
structure UserDoc where
  id : String
  isActive : Bool
deriving DecidableEq, Repr

/-- A conversation document (`participants` holds the two user ids). -/
structure Conversation where
  id : String
  participants : List String
deriving DecidableEq, Repr

/-- A chat message document as written by `createMessage`. -/
structure ChatMessage where
  id : String
  conversationId : String
  senderId : String
  content : String
  isRead : Bool
deriving DecidableEq, Repr

/-- The document-store state visible to the consumer, plus a fresh-id counter
for newly created conversation and message documents. -/
structure ConsumeState where
  users : List UserDoc
  conversations : List Conversation
  chatMessages : List ChatMessage
  autoStore : AutoMessageStore
  nextId : Nat
deriving DecidableEq, Repr

/-- `MessageProcessingResult` returned by `processQueueMessage`. -/
structure MessageProcessingResult where
  success : Bool
  messageId : Option String
  conversationId : Option String
  error : Option String
deriving DecidableEq, Repr

/-- Whitespace as stripped by JavaScript's `String.prototype.trim`
(ASCII subset; the templates and envelopes carry only ASCII text). -/
def isJsWhitespace (c : Char) : Bool :=
  c == ' ' || c == '\t' || c == '\n' || c == '\r' || c == '\x0b' || c == '\x0c'

/-- JavaScript's `content.trim()`: strip leading and trailing whitespace. -/
def jsTrim (s : String) : String :=
  String.mk (((s.data.dropWhile isJsWhitespace).reverse.dropWhile isJsWhitespace).reverse)

/-- `MessageConsumerService.validateQueueMessage`, parameterized by the external
`Types.ObjectId.isValid` predicate.  Returns the error code thrown, or `none`
when the envelope passes.  Checks run in source order; the length check is on
the raw (untrimmed) content. -/
def validateQueueMessage (isValidId : String → Bool) (q : QueueMessageData) : Option String :=
  if q.autoMessageId = "" ∨ ¬ isValidId q.autoMessageId then some "INVALID_AUTO_MESSAGE_ID"
  else if q.senderId = "" ∨ ¬ isValidId q.senderId then some "INVALID_SENDER_ID"
  else if q.receiverId = "" ∨ ¬ isValidId q.receiverId then some "INVALID_RECEIVER_ID"
  else if q.content = "" ∨ (jsTrim q.content).length = 0 then some "EMPTY_CONTENT"
  else if q.content.length > 1000 then some "CONTENT_TOO_LONG"
  else if q.senderId = q.receiverId then some "SAME_SENDER_RECEIVER"
  else none

/-- `MessageConsumerService.validateUsers`: both users must exist and be active. -/
def validateUsers (st : ConsumeState) (senderId receiverId : String) : Option String :=
  match st.users.find? (fun u => u.id == senderId) with
  | none => some "SENDER_NOT_FOUND"
  | some sender =>
    match st.users.find? (fun u => u.id == receiverId) with
    | none => some "RECEIVER_NOT_FOUND"
    | some receiver =>
      if ¬ sender.isActive then some "SENDER_INACTIVE"
      else if ¬ receiver.isActive then some "RECEIVER_INACTIVE"
      else none

/-- `createOrFindConversation`: find a conversation whose participants contain
both ids (`$all`), else create a fresh one with `[senderId, receiverId]`. -/
def createOrFindConversation (st : ConsumeState) (senderId receiverId : String) :
    String × ConsumeState :=
  match st.conversations.find?
      (fun c => c.participants.contains senderId && c.participants.contains receiverId) with
  | some c => (c.id, st)
  | none =>
    let convId := "conv" ++ toString st.nextId
    (convId,
     { st with
       conversations := st.conversations ++ [{ id := convId, participants := [senderId, receiverId] }],
       nextId := st.nextId + 1 })

/-- `createMessage`: persist a new ChatMessage with trimmed content and `isRead=false`. -/
def createMessage (st : ConsumeState) (conversationId senderId content : String) :
    ChatMessage × ConsumeState :=
  let msg : ChatMessage :=
    { id := "msg" ++ toString st.nextId, conversationId := conversationId,
      senderId := senderId, content := jsTrim content, isRead := false }
  (msg, { st with chatMessages := st.chatMessages ++ [msg], nextId := st.nextId + 1 })

/-- `updateAutoMessageStatus`: calls `AutoMessage.markAsSent` and swallows every
outcome — a missing document is only warned about, and a store error
(`sentThrows = true`) is caught and logged, leaving the store unchanged.
Nothing ever propagates to the caller. -/
def updateAutoMessageStatus (st : ConsumeState) (autoMessageId : String)
    (sentThrows : Bool) : ConsumeState :=
  if sentThrows then st
  else { st with autoStore := (markAsSent st.autoStore autoMessageId).1 }

/-- `MessageConsumerService.processQueueMessage`: validate the envelope, validate
the users, resolve the conversation, persist the chat message, mark the planned
message sent, and return `success := true`; any validation error yields
`success := false` with the error code and an unchanged store. -/
def processQueueMessage (isValidId : String → Bool) (sentThrows : Bool)
    (q : QueueMessageData) (st : ConsumeState) : MessageProcessingResult × ConsumeState :=
  match validateQueueMessage isValidId q with
  | some e => ({ success := false, messageId := none, conversationId := none, error := some e }, st)
  | none =>
    match validateUsers st q.senderId q.receiverId with
    | some e => ({ success := false, messageId := none, conversationId := none, error := some e }, st)
    | none =>
      let conv := createOrFindConversation st q.senderId q.receiverId
      let msgRes := createMessage conv.2 conv.1 q.senderId q.content
      let st3 := updateAutoMessageStatus msgRes.2 q.autoMessageId sentThrows
      ({ success := true, messageId := some msgRes.1.id,
         conversationId := some conv.1, error := none }, st3)

/-! ### Broker subscriber (`src/socket/socket.middleware.ts`, `MessageSubscriber`) -/

/-- Consumer configuration (`this.config`). -/
def consumerRetryAttempts : Nat := 3

/-- `retryDelay` of the consumer configuration, in milliseconds. -/
def consumerRetryDelay : Nat := 5000

/-- `queueName` of the consumer configuration. -/
def consumerQueueName : String := "message_sending_queue"

/-- Broker/channel operations performed for one frame, in order of effect. -/
inductive BrokerOp
  | publishAfter (delayMs : Nat) (queue : String) (payload : String) (headers : List (String × Nat))
  | ack
  | nackNoRequeue
  | emitMessageFailed
  | emitProcessed
  | notifyIfOnline (receiverId : String)
deriving DecidableEq, Repr

/-- `(message.properties.headers?.['x-retry-count'] as number) || 0`. -/
def getRetryHeader (headers : List (String × Nat)) : Nat :=
  match headers.find? (fun p => p.1 == "x-retry-count") with
  | some p => p.2
  | none => 0

/-- The header object `{...message.properties.headers, 'x-retry-count': retryCount + 1}`:
all old entries, with `x-retry-count` overridden. -/
def setRetryHeader (headers : List (String × Nat)) (v : Nat) : List (String × Nat) :=
  (headers.filter fun p => p.1 != "x-retry-count") ++ [("x-retry-count", v)]

/-- `MessageSubscriber.handleProcessingFailure`: read `r` from the `x-retry-count`
header (absent = 0); if `r < retryAttempts` schedule after `retryDelay` ms a
republish of the same payload to the same queue with the header set to `r + 1`
and then ack (nack without requeue if the republish itself fails,
`republishOk = false`); otherwise nack without requeue and emit `MESSAGE_FAILED`. -/
def handleProcessingFailure (headers : List (String × Nat)) (payload : String)
    (republishOk : Bool) : List BrokerOp :=
  let retryCount := getRetryHeader headers
  if retryCount < consumerRetryAttempts then
    if republishOk then
      [BrokerOp.publishAfter consumerRetryDelay consumerQueueName payload
         (setRetryHeader headers (retryCount + 1)),
       BrokerOp.ack]
    else
      [BrokerOp.nackNoRequeue]
  else
    [BrokerOp.nackNoRequeue, BrokerOp.emitMessageFailed]

/-- `MessageSubscriber.handleMessage`: parse the payload (`parsed` is the outcome of
`JSON.parse`; `none` means the parse threw and the catch block runs), process the
envelope, and on success notify-if-online, ack and emit `MESSAGE_PROCESSED`; every
failure — a parse failure included — goes through `handleProcessingFailure`. -/
def handleMessage (parsed : Option QueueMessageData) (headers : List (String × Nat))
    (payload : String) (isValidId : String → Bool) (sentThrows : Bool)
    (republishOk : Bool) (st : ConsumeState) : List BrokerOp × ConsumeState :=
  match parsed with
  | none => (handleProcessingFailure headers payload republishOk, st)
  | some q =>
    let pr := processQueueMessage isValidId sentThrows q st
    if pr.1.success then
      ([BrokerOp.notifyIfOnline q.receiverId, BrokerOp.ack, BrokerOp.emitProcessed], pr.2)
    else
      (handleProcessingFailure headers payload republishOk, pr.2)

/-! ### Consumer statistics (`MessageSubscriber` stats) -/

/-- `ConsumerStats` as kept by the subscriber. -/
structure ConsumerStats where
  isRunning : Bool
  totalProcessed : Nat
  totalSuccessful : Nat
  totalFailed : Nat
  lastProcessedAt : Option Nat
  averageProcessingTime : ℚ
deriving DecidableEq, Repr

/-- Subscriber-internal state: the stats record plus the sliding window
`processingTimes` of recent successful processing durations. -/
structure SubscriberState where
  stats : ConsumerStats
  processingTimes : List ℚ
deriving DecidableEq, Repr

/-- Initial subscriber state (field initializers of `MessageSubscriber`). -/
def initialSubscriberState : SubscriberState :=
  { stats := { isRunning := false, totalProcessed := 0, totalSuccessful := 0,
               totalFailed := 0, lastProcessedAt := none, averageProcessingTime := 0 },
    processingTimes := [] }

/-- `updateSuccessStats`: bump `totalProcessed` and `totalSuccessful`, record
`lastProcessedAt`, push the duration into the window (dropping the oldest entry
past 100), and recompute the mean. -/
def updateSuccessStats (s : SubscriberState) (processingTime : ℚ) (now : Nat) : SubscriberState :=
  let pushed := s.processingTimes ++ [processingTime]
  let times := if pushed.length > 100 then pushed.drop 1 else pushed
  { stats := { s.stats with
      totalProcessed := s.stats.totalProcessed + 1,
      totalSuccessful := s.stats.totalSuccessful + 1,
      lastProcessedAt := some now,
      averageProcessingTime := (times.foldl (· + ·) 0) / (times.length : ℚ) },
    processingTimes := times }

/-- `updateFailureStats`: bump `totalProcessed` and `totalFailed`. -/
def updateFailureStats (s : SubscriberState) : SubscriberState :=
  { s with stats := { s.stats with
      totalProcessed := s.stats.totalProcessed + 1,
      totalFailed := s.stats.totalFailed + 1 } }

/-- `resetStats`: zero every counter, keep `isRunning`, clear the window. -/
def resetStats (s : SubscriberState) : SubscriberState :=
  { stats := { isRunning := s.stats.isRunning, totalProcessed := 0, totalSuccessful := 0,
               totalFailed := 0, lastProcessedAt := none, averageProcessingTime := 0 },
    processingTimes := [] }

/-- One stats-affecting event of the subscriber. -/
inductive StatsEvent
  | success (processingTime : ℚ) (now : Nat)
  | failure
  | reset
deriving Repr

/-- Apply one stats event. -/
def applyStatsEvent (s : SubscriberState) : StatsEvent → SubscriberState
  | StatsEvent.success t now => updateSuccessStats s t now
  | StatsEvent.failure => updateFailureStats s
  | StatsEvent.reset => resetStats s

/-! ### Planner (`src/services/auto-message.service.ts`) -/

/-- The pairing loop of `createUserPairs`:
`for (i = 0; i < shuffledUsers.length - 1; i += 2) pairs.push((l[i], l[i+1]))`. -/
def pairWalk {α : Type} : List α → List (α × α)
  | a :: b :: rest => (a, b) :: pairWalk rest
  | _ => []

/-- `AutoMessageService.createUserPairs`: fewer than 2 users yields no pairs;
otherwise walk the shuffled list two at a time, the first element of each pair
being the sender.  The Fisher-Yates shuffle draws from `Math.random`, so it is
abstracted as the `shuffle` parameter. -/
def createUserPairs (shuffle : List String → List String) (users : List String) :
    List (String × String) :=
  if users.length < 2 then [] else pairWalk (shuffle users)

/-- `AutoMessageService.planAutomaticMessages`: 0 when fewer than 2 active users
or no pairs; otherwise one AutoMessage row per pair is built and `insertMany`
persists them all, so the returned `savedMessages.length` is the pair count. -/
def planAutomaticMessages (shuffle : List String → List String)
    (activeUsers : List String) : Nat :=
  if activeUsers.length < 2 then 0
  else
    let userPairs := createUserPairs shuffle activeUsers
    if userPairs.length = 0 then 0
    else userPairs.length

/-! ### Planning job (`src/unnamed/part_013`, `MessagePlanningJob` and
`src/jobs/job-manager.ts`, `JobManager`) -/

/-- `MessagePlanningJob.executeJob`: await `planAutomaticMessages`, log the count
(`.ok n`) or catch and log the error (`.error e`); the count is discarded and
nothing is returned. -/
def executeJob (planOutcome : Except String Nat) : Unit :=
  match planOutcome with
  | Except.ok _ => ()
  | Except.error _ => ()

/-- `MessagePlanningJob.executeManually`: run `executeJob` and `return 0`. -/
def executeManually (planOutcome : Except String Nat) : Nat :=
  let _ := executeJob planOutcome
  0

/-- `JobManager.triggerMessagePlanningJob`: returns `executeManually`'s result. -/
def triggerMessagePlanningJob (planOutcome : Except String Nat) : Nat :=
  executeManually planOutcome

/-- A status-transition step of the pipeline on the planned-message store:
a successful `markAsQueued` of the dispatcher, or a `markAsSent` of the consumer. -/
inductive PipelineStep
  | queuedStep (ids : List String)
  | sentStep (id : String)
deriving DecidableEq, Repr

/-- Run a sequence of status transitions on the store. -/
def runPipeline (store : AutoMessageStore) : List PipelineStep → AutoMessageStore
  | [] => store
  | PipelineStep.queuedStep ids :: rest => runPipeline (markAsQueued store ids) rest
  | PipelineStep.sentStep id :: rest => runPipeline (markAsSent store id).1 rest

/-- A trace is covered when every `markAsSent id` is preceded by a successful
`markAsQueued` whose id list contains `id` (`qs` accumulates the queued ids). -/
def sentCoveredFrom (qs : List String) : List PipelineStep → Bool
  | [] => true
  | PipelineStep.queuedStep ids :: rest => sentCoveredFrom (qs ++ ids) rest
  | PipelineStep.sentStep id :: rest => qs.contains id && sentCoveredFrom qs rest

/-- Spec-side helper: all users occurring in a pair list, in walk order. -/
def flattenPairs {α : Type} (ps : List (α × α)) : List α :=
  ps.flatMap fun p => [p.1, p.2]

/-! ## Theorems -/

/-! ### C10 — manual planning trigger always reports 0 -/

/-- C10: `MessagePlanningJob.executeManually()` returns 0 on every invocation —
whatever count `planAutomaticMessages` produced (or whatever error it threw) is
discarded by `executeJob`, and `JobManager.triggerMessagePlanningJob` forwards
that constant 0, so the manual-trigger entry point never reports the planned count. -/
theorem c10_executeManually_always_zero (planOutcome : Except String Nat) :
    executeManually planOutcome = 0 ∧ triggerMessagePlanningJob planOutcome = 0 :=
  ⟨rfl, rfl⟩

/-! ### C8 — consumer counters invariant -/

/-- Every stats event preserves `totalProcessed = totalSuccessful + totalFailed`. -/
theorem statsEvent_preserves_counters (s : SubscriberState) (e : StatsEvent)
    (h : s.stats.totalProcessed = s.stats.totalSuccessful + s.stats.totalFailed) :
    (applyStatsEvent s e).stats.totalProcessed =
      (applyStatsEvent s e).stats.totalSuccessful + (applyStatsEvent s e).stats.totalFailed := by
  cases e <;>
    simp [applyStatsEvent, updateSuccessStats, updateFailureStats, resetStats] <;>
    omega

/-- C8: the consumer statistics satisfy
`totalProcessed = totalSuccessful + totalFailed` at every point: starting from the
initial stats, after any sequence of success updates, failure updates and resets
the equality holds. -/
theorem c8_stats_invariant (events : List StatsEvent) :
    (events.foldl applyStatsEvent initialSubscriberState).stats.totalProcessed =
      (events.foldl applyStatsEvent initialSubscriberState).stats.totalSuccessful +
        (events.foldl applyStatsEvent initialSubscriberState).stats.totalFailed := by
  have main : ∀ (evs : List StatsEvent) (s : SubscriberState),
      s.stats.totalProcessed = s.stats.totalSuccessful + s.stats.totalFailed →
      (evs.foldl applyStatsEvent s).stats.totalProcessed =
        (evs.foldl applyStatsEvent s).stats.totalSuccessful +
          (evs.foldl applyStatsEvent s).stats.totalFailed := by
    intro evs
    induction evs with
    | nil => intro s h; exact h
    | cons e rest ih =>
      intro s h
      exact ih (applyStatsEvent s e) (statsEvent_preserves_counters s e h)
  exact main events initialSubscriberState rfl

/-! ### C5 — retry protocol of the failure path -/

/-- After `setRetryHeader`, the `x-retry-count` entry is found with the new value. -/
theorem find?_setRetryHeader (headers : List (String × Nat)) (v : Nat) :
    (setRetryHeader headers v).find? (fun p => p.1 == "x-retry-count") =
      some ("x-retry-count", v) := by
  unfold setRetryHeader
  rw [List.find?_append]
  have h1 : (headers.filter fun p => p.1 != "x-retry-count").find?
      (fun p => p.1 == "x-retry-count") = none := by
    rw [List.find?_eq_none]
    intro x hx
    have hx2 := List.of_mem_filter hx
    simp only [bne_iff_ne, ne_eq] at hx2
    simp [hx2]
  rw [h1]
  rfl

/-- Reading the retry header back after `setRetryHeader` yields the written value. -/
theorem getRetryHeader_setRetryHeader (headers : List (String × Nat)) (v : Nat) :
    getRetryHeader (setRetryHeader headers v) = v := by
  unfold getRetryHeader
  rw [find?_setRetryHeader]

/-- C5: for a failed envelope with retry header `r` (absent = 0) and max attempts 3:
if `r < 3` the consumer republishes the same payload to the same queue after
5000 ms with `x-retry-count` set to `r + 1` (readable back as `r + 1`) and then
acks the original frame; if the republish itself fails it nacks without requeue;
if `r ≥ 3` it nacks without requeue and emits `MESSAGE_FAILED` — so an envelope
arriving with `x-retry-count = 3` is dead-lettered with no further retry. -/
theorem c5_retry_protocol (headers : List (String × Nat)) (payload : String)
    (republishOk : Bool) :
    (getRetryHeader headers < 3 → republishOk = true →
      handleProcessingFailure headers payload republishOk =
        [BrokerOp.publishAfter 5000 "message_sending_queue" payload
           (setRetryHeader headers (getRetryHeader headers + 1)),
         BrokerOp.ack] ∧
      getRetryHeader (setRetryHeader headers (getRetryHeader headers + 1)) =
        getRetryHeader headers + 1) ∧
    (getRetryHeader headers < 3 → republishOk = false →
      handleProcessingFailure headers payload republishOk = [BrokerOp.nackNoRequeue]) ∧
    (3 ≤ getRetryHeader headers →
      handleProcessingFailure headers payload republishOk =
        [BrokerOp.nackNoRequeue, BrokerOp.emitMessageFailed]) := by
  refine ⟨fun h hr => ⟨?_, getRetryHeader_setRetryHeader _ _⟩, fun h hr => ?_, fun h => ?_⟩
  · subst hr
    simp [handleProcessingFailure, consumerRetryAttempts, consumerRetryDelay,
          consumerQueueName, h]
  · subst hr
    simp [handleProcessingFailure, consumerRetryAttempts, h]
  · simp [handleProcessingFailure, consumerRetryAttempts, Nat.not_lt.mpr h]

/-- C5 witness: a concrete frame at retry count 1 is republished with the header
set to 2 and acked; one arriving at 3 is dead-lettered with `MESSAGE_FAILED`. -/
theorem c5_retry_protocol_witness :
    (handleProcessingFailure [("x-retry-count", 1)] "payload" true =
      [BrokerOp.publishAfter 5000 "message_sending_queue" "payload" [("x-retry-count", 2)],
       BrokerOp.ack]) ∧
    handleProcessingFailure [("x-retry-count", 3)] "payload2" false =
      [BrokerOp.nackNoRequeue, BrokerOp.emitMessageFailed] := by
  constructor
  · have h := (c5_retry_protocol [("x-retry-count", 1)] "payload" true).1 (by decide) rfl
    have e1 : setRetryHeader [("x-retry-count", 1)]
        (getRetryHeader [("x-retry-count", 1)] + 1) = [("x-retry-count", 2)] := by decide
    rw [e1] at h
    have e2 : getRetryHeader [("x-retry-count", 1)] = 1 := by decide
    rw [e2] at h
    exact h.1
  · exact (c5_retry_protocol [("x-retry-count", 3)] "payload2" false).2.2 (by decide)

/-! ### C3 — parse failures are NOT dead-lettered immediately -/

/-- C3 counterexample: a frame whose payload is not parseable as JSON
(`JSON.parse` threw, `parsed = none`), arriving with no `x-retry-count` header,
is NOT nacked: the consumer schedules a delayed republish of the unparseable
payload with `x-retry-count = 1` and acks — refuting the claim that such frames
are dead-lettered immediately regardless of the retry header. -/
theorem c3_counterexample :
    (let st : ConsumeState :=
       { users := [], conversations := [], chatMessages := [], autoStore := [], nextId := 0 }
     let out := handleMessage none [] "not json" (fun _ => true) false true st
     out.1 = [BrokerOp.publishAfter 5000 "message_sending_queue" "not json"
                [("x-retry-count", 1)],
              BrokerOp.ack] ∧
     BrokerOp.nackNoRequeue ∉ out.1) := by decide

/-- C3 amended: an incoming frame with unparseable payload takes the same generic
failure path as any processing failure: with retry header `r < 3` it is
republished (same payload, same queue, 5000 ms delay, header `r + 1`) and acked,
or nacked without requeue when the republish fails; only with `r ≥ 3` is it
nacked without requeue (dead-lettered). -/
theorem c3_amended_parse_failure_path (headers : List (String × Nat)) (payload : String)
    (isValidId : String → Bool) (sentThrows republishOk : Bool) (st : ConsumeState) :
    (getRetryHeader headers < 3 →
      (handleMessage none headers payload isValidId sentThrows republishOk st).1 =
        if republishOk then
          [BrokerOp.publishAfter 5000 "message_sending_queue" payload
             (setRetryHeader headers (getRetryHeader headers + 1)),
           BrokerOp.ack]
        else [BrokerOp.nackNoRequeue]) ∧
    (3 ≤ getRetryHeader headers →
      (handleMessage none headers payload isValidId sentThrows republishOk st).1 =
        [BrokerOp.nackNoRequeue, BrokerOp.emitMessageFailed]) := by
  constructor
  · intro h
    cases republishOk <;>
      simp [handleMessage, handleProcessingFailure, consumerRetryAttempts,
            consumerRetryDelay, consumerQueueName, h]
  · intro h
    simp [handleMessage, handleProcessingFailure, consumerRetryAttempts,
          Nat.not_lt.mpr h]

/-- C3 amended witness: a concrete unparseable frame at retry count 0 is
republished with header 1 and acked; one at 3 is dead-lettered. -/
theorem c3_amended_witness :
    (handleMessage none [] "bad payload" (fun _ => true) false true
       { users := [], conversations := [], chatMessages := [], autoStore := [], nextId := 0 }).1 =
      [BrokerOp.publishAfter 5000 "message_sending_queue" "bad payload"
         [("x-retry-count", 1)],
       BrokerOp.ack] ∧
    (handleMessage none [("x-retry-count", 3)] "bad payload" (fun _ => true) false true
       { users := [], conversations := [], chatMessages := [], autoStore := [], nextId := 0 }).1 =
      [BrokerOp.nackNoRequeue, BrokerOp.emitMessageFailed] := by
  constructor
  · have h := (c3_amended_parse_failure_path [] "bad payload" (fun _ => true) false true
      { users := [], conversations := [], chatMessages := [], autoStore := [], nextId := 0 }).1
      (by decide)
    have e1 : setRetryHeader ([] : List (String × Nat)) (getRetryHeader [] + 1) =
        [("x-retry-count", 1)] := by decide
    rw [e1] at h
    simpa using h
  · exact (c3_amended_parse_failure_path [("x-retry-count", 3)] "bad payload" (fun _ => true)
      false true
      { users := [], conversations := [], chatMessages := [], autoStore := [], nextId := 0 }).2
      (by decide)

/-! ### C1 — marked ids are the batch prefix, not the successfully published set -/

/-- C1: in a batch of 3 where only the 2nd publish fails, `processBatch` reports
`queued = 2, failed = 1, errors.length = 1`, but the ids passed to `markAsQueued`
are the FIRST two ids of the batch `["m1", "m2"]` — including the failed `"m2"` —
instead of the successfully published set `["m1", "m3"]`: `"m2"` ends up
`isQueued = true` although its envelope was never published, and the published
`"m3"` stays `isQueued = false`. -/
theorem c1_prefix_marking_bug :
    (let batch : List PendingMessage :=
       [{ id := "m1", senderId := "s1", receiverId := "r1", content := "hello", sendDate := 0 },
        { id := "m2", senderId := "s2", receiverId := "r2", content := "hello", sendDate := 0 },
        { id := "m3", senderId := "s3", receiverId := "r3", content := "hello", sendDate := 0 }]
     let store : AutoMessageStore :=
       [mkAutoMessage "m1" "s1" "r1" "hello" 0, mkAutoMessage "m2" "s2" "r2" "hello" 0,
        mkAutoMessage "m3" "s3" "r3" "hello" 0]
     let pubOk : Nat → Bool := fun i => i != 1
     let out := processBatch store batch 5 pubOk true
     out.1.queued = 2 ∧ out.1.failed = 1 ∧ out.1.errors.length = 1 ∧
     out.2.1 = ["m1", "m2"] ∧
     publishedIdsSpec batch pubOk = ["m1", "m3"] ∧
     out.2.1 ≠ publishedIdsSpec batch pubOk ∧
     (out.2.2.map fun m => (m.id, m.isQueued)) =
       [("m1", true), ("m2", true), ("m3", false)]) := by decide

/-! ### C2 — no duplicate-delivery guard in the consumer -/

/-- C2: delivering the same envelope twice creates TWO ChatMessages.  After the
first `processQueueMessage` the planned message `"aaa"` is `isSent = true`, yet
the second delivery of the very same envelope succeeds again and persists a
second ChatMessage instead of short-circuiting on the already-sent
PlannedMessage — refuting the at-most-one-ChatMessage claim. -/
theorem c2_duplicate_delivery_bug :
    (let q : QueueMessageData :=
       { autoMessageId := "aaa", senderId := "u1", receiverId := "u2",
         content := "hi", originalSendDate := 0, queuedAt := 0 }
     let st0 : ConsumeState :=
       { users := [{ id := "u1", isActive := true }, { id := "u2", isActive := true }],
         conversations := [], chatMessages := [],
         autoStore := [mkAutoMessage "aaa" "u1" "u2" "hi" 0], nextId := 0 }
     let r1 := processQueueMessage (fun _ => true) false q st0
     let r2 := processQueueMessage (fun _ => true) false q r1.2
     r1.1.success = true ∧
     (r1.2.autoStore.map fun m => (m.id, m.isSent)) = [("aaa", true)] ∧
     r2.1.success = true ∧
     r2.2.chatMessages.length = 2) := by decide

/-! ### C4 — `isSent ⇒ isQueued` fails when the queued-update failed -/

/-- C4 counterexample: one planned message, publish succeeds but the
`markAsQueued` store update fails (`markOk = false`), then the consumer marks it
sent: the reachable state has `isQueued = false ∧ isSent = true`, violating the
claimed invariant for this interleaving — which the claim explicitly includes. -/
theorem c4_counterexample :
    (let store0 : AutoMessageStore := [mkAutoMessage "m1" "u1" "u2" "hi" 0]
     let dispatched := processBatch store0
       [{ id := "m1", senderId := "u1", receiverId := "u2", content := "hi", sendDate := 0 }]
       0 (fun _ => true) false
     let store2 := (markAsSent dispatched.2.2 "m1").1
     dispatched.1.queued = 1 ∧
     (store2.map fun m => (m.isQueued, m.isSent)) = [(false, true)]) := by decide

/-- C4 amended: `isSent ⇒ isQueued` holds for every message after every
interleaving of `markAsQueued` / `markAsSent` steps on a store of freshly
created messages (both flags false), PROVIDED each consumed id was covered by a
successful `markAsQueued` beforehand; when that store update failed after a
successful publish, `markAsSent` reaches `isSent = true ∧ isQueued = false`
(see the counterexample). -/
theorem c4_sent_implies_queued_covered (store : AutoMessageStore)
    (trace : List PipelineStep)
    (hinit : ∀ m ∈ store, m = mkAutoMessage m.id m.senderId m.receiverId m.content m.sendDate)
    (hcov : sentCoveredFrom [] trace = true) :
    ∀ m ∈ runPipeline store trace, m.isSent → m.isQueued := by
  have main : ∀ (tr : List PipelineStep) (qs : List String) (st : AutoMessageStore),
      (∀ m ∈ st, m.isSent → m.isQueued) →
      (∀ m ∈ st, m.id ∈ qs → m.isQueued) →
      sentCoveredFrom qs tr = true →
      ∀ m ∈ runPipeline st tr, m.isSent → m.isQueued := by
    intro tr
    induction tr with
    | nil => intro qs st h1 _ _; exact h1
    | cons step rest ih =>
      intro qs st h1 h2 hc
      cases step with
      | queuedStep ids =>
        simp only [sentCoveredFrom] at hc
        simp only [runPipeline]
        apply ih (qs ++ ids) (markAsQueued st ids) ?_ ?_ hc
        · intro m hm hs
          rcases List.mem_map.mp hm with ⟨m0, hm0, hdef⟩
          by_cases hid : m0.id ∈ ids
          · rw [← hdef]
            simp [hid]
          · rw [← hdef] at hs ⊢
            simp only [if_neg hid] at hs ⊢
            exact h1 m0 hm0 hs
        · intro m hm hmem
          rcases List.mem_map.mp hm with ⟨m0, hm0, hdef⟩
          by_cases hid : m0.id ∈ ids
          · rw [← hdef]
            simp [hid]
          · rw [← hdef] at hmem ⊢
            simp only [if_neg hid] at hmem ⊢
            rcases List.mem_append.mp hmem with hq | hi
            · exact h2 m0 hm0 hq
            · exact absurd hi hid
      | sentStep id =>
        simp only [sentCoveredFrom, Bool.and_eq_true] at hc
        rcases hc with ⟨hq, hrest⟩
        have hqmem : id ∈ qs := by
          simpa using hq
        simp only [runPipeline]
        apply ih qs (markAsSent st id).1 ?_ ?_ hrest
        · intro m hm
          rcases List.mem_map.mp hm with ⟨m0, hm0, hdef⟩
          by_cases hid : m0.id = id
          · rw [← hdef]
            simp only [if_pos hid]
            intro _
            exact h2 m0 hm0 (hid ▸ hqmem)
          · rw [← hdef]
            simp only [if_neg hid]
            exact h1 m0 hm0
        · intro m hm hmem
          rcases List.mem_map.mp hm with ⟨m0, hm0, hdef⟩
          by_cases hid : m0.id = id
          · rw [← hdef]
            simp only [if_pos hid]
            exact h2 m0 hm0 (hid ▸ hqmem)
          · rw [← hdef] at hmem ⊢
            simp only [if_neg hid] at hmem ⊢
            exact h2 m0 hm0 hmem
  apply main trace [] store ?_ ?_ hcov
  · intro m hm hs
    have := hinit m hm
    rw [this] at hs
    simp [mkAutoMessage] at hs
  · intro m _ hmem
    simp at hmem

/-- C4 amended witness: queue-then-send on one fresh message satisfies the
invariant at the concrete resulting document. -/
theorem c4_sent_implies_queued_covered_witness :
    ({ id := "a", senderId := "s", receiverId := "r", content := "c", sendDate := 0,
       isQueued := true, isSent := true } : AutoMessage).isQueued = true :=
  c4_sent_implies_queued_covered [mkAutoMessage "a" "s" "r" "c" 0]
    [PipelineStep.queuedStep ["a"], PipelineStep.sentStep "a"]
    (by decide) (by decide)
    { id := "a", senderId := "s", receiverId := "r", content := "c", sendDate := 0,
      isQueued := true, isSent := true }
    (by decide) (by decide)

/-! ### C9 — a throwing `markAsSent` is swallowed, success is still reported -/

/-- `createOrFindConversation` never touches the planned-message store. -/
theorem createOrFindConversation_autoStore (st : ConsumeState) (s r : String) :
    (createOrFindConversation st s r).2.autoStore = st.autoStore := by
  unfold createOrFindConversation
  split <;> rfl

/-- `createOrFindConversation` never touches the chat-message collection. -/
theorem createOrFindConversation_chatMessages (st : ConsumeState) (s r : String) :
    (createOrFindConversation st s r).2.chatMessages = st.chatMessages := by
  unfold createOrFindConversation
  split <;> rfl

/-- When both validations pass, `processQueueMessage` runs the success pipeline. -/
theorem processQueueMessage_success_shape (isValidId : String → Bool) (sentThrows : Bool)
    (q : QueueMessageData) (st : ConsumeState)
    (hv : validateQueueMessage isValidId q = none)
    (hu : validateUsers st q.senderId q.receiverId = none) :
    processQueueMessage isValidId sentThrows q st =
      (let conv := createOrFindConversation st q.senderId q.receiverId
       let msgRes := createMessage conv.2 conv.1 q.senderId q.content
       let st3 := updateAutoMessageStatus msgRes.2 q.autoMessageId sentThrows
       ({ success := true, messageId := some msgRes.1.id,
          conversationId := some conv.1, error := none }, st3)) := by
  unfold processQueueMessage
  rw [hv, hu]

/-- C9: when envelope and user validation pass and the `markAsSent` store update
throws (`sentThrows = true`), `processQueueMessage` swallows the error: it still
returns `success = true`, the planned-message store is left untouched (so the
PlannedMessage stays `isSent = false`), one ChatMessage has nonetheless been
persisted, and `handleMessage` therefore acks the frame and runs the
notification path. -/
theorem c9_sent_error_swallowed (isValidId : String → Bool) (q : QueueMessageData)
    (st : ConsumeState) (headers : List (String × Nat)) (payload : String)
    (republishOk : Bool)
    (hv : validateQueueMessage isValidId q = none)
    (hu : validateUsers st q.senderId q.receiverId = none) :
    (processQueueMessage isValidId true q st).1.success = true ∧
    (processQueueMessage isValidId true q st).2.autoStore = st.autoStore ∧
    (processQueueMessage isValidId true q st).2.chatMessages.length =
      st.chatMessages.length + 1 ∧
    (handleMessage (some q) headers payload isValidId true republishOk st).1 =
      [BrokerOp.notifyIfOnline q.receiverId, BrokerOp.ack, BrokerOp.emitProcessed] := by
  have hshape := processQueueMessage_success_shape isValidId true q st hv hu
  refine ⟨by rw [hshape], ?_, ?_, ?_⟩
  · rw [hshape]
    simp [updateAutoMessageStatus, createMessage, createOrFindConversation_autoStore]
  · rw [hshape]
    simp [updateAutoMessageStatus, createMessage, createOrFindConversation_chatMessages]
  · simp only [handleMessage]
    rw [hshape]
    simp

/-- C9 witness: a concrete valid envelope whose `markAsSent` throws still yields
`success = true`, an unchanged planned-message store, one new ChatMessage, and
an acked frame with the notification path. -/
theorem c9_sent_error_swallowed_witness :
    (processQueueMessage (fun _ => true) true
        { autoMessageId := "aaa", senderId := "u1", receiverId := "u2",
          content := "hi", originalSendDate := 0, queuedAt := 0 }
        { users := [{ id := "u1", isActive := true }, { id := "u2", isActive := true }],
          conversations := [], chatMessages := [],
          autoStore := [mkAutoMessage "aaa" "u1" "u2" "hi" 0], nextId := 0 }).1.success = true ∧
    (processQueueMessage (fun _ => true) true
        { autoMessageId := "aaa", senderId := "u1", receiverId := "u2",
          content := "hi", originalSendDate := 0, queuedAt := 0 }
        { users := [{ id := "u1", isActive := true }, { id := "u2", isActive := true }],
          conversations := [], chatMessages := [],
          autoStore := [mkAutoMessage "aaa" "u1" "u2" "hi" 0], nextId := 0 }).2.autoStore =
      ({ users := [{ id := "u1", isActive := true }, { id := "u2", isActive := true }],
         conversations := [], chatMessages := [],
         autoStore := [mkAutoMessage "aaa" "u1" "u2" "hi" 0], nextId := 0 } : ConsumeState).autoStore ∧
    (processQueueMessage (fun _ => true) true
        { autoMessageId := "aaa", senderId := "u1", receiverId := "u2",
          content := "hi", originalSendDate := 0, queuedAt := 0 }
        { users := [{ id := "u1", isActive := true }, { id := "u2", isActive := true }],
          conversations := [], chatMessages := [],
          autoStore := [mkAutoMessage "aaa" "u1" "u2" "hi" 0], nextId := 0 }).2.chatMessages.length =
      ({ users := [{ id := "u1", isActive := true }, { id := "u2", isActive := true }],
         conversations := [], chatMessages := [],
         autoStore := [mkAutoMessage "aaa" "u1" "u2" "hi" 0], nextId := 0 } : ConsumeState).chatMessages.length + 1 ∧
    (handleMessage (some
        { autoMessageId := "aaa", senderId := "u1", receiverId := "u2",
          content := "hi", originalSendDate := 0, queuedAt := 0 }) [] "payload" (fun _ => true)
        true true
        { users := [{ id := "u1", isActive := true }, { id := "u2", isActive := true }],
          conversations := [], chatMessages := [],
          autoStore := [mkAutoMessage "aaa" "u1" "u2" "hi" 0], nextId := 0 }).1 =
      [BrokerOp.notifyIfOnline "u2", BrokerOp.ack, BrokerOp.emitProcessed] :=
  c9_sent_error_swallowed (fun _ => true)
    { autoMessageId := "aaa", senderId := "u1", receiverId := "u2",
      content := "hi", originalSendDate := 0, queuedAt := 0 }
    { users := [{ id := "u1", isActive := true }, { id := "u2", isActive := true }],
      conversations := [], chatMessages := [],
      autoStore := [mkAutoMessage "aaa" "u1" "u2" "hi" 0], nextId := 0 }
    [] "payload" true (by decide) (by decide)

/-! ### C7 — validation characterization and the 1000/1001 boundary -/

/-- A string has length 0 exactly when it is empty. -/
theorem string_length_eq_zero_iff (s : String) : s.length = 0 ↔ s = "" := by
  constructor
  · intro h
    apply String.ext
    have hd : s.data.length = 0 := h
    simpa using List.length_eq_zero.mp hd
  · intro h
    subst h
    rfl

set_option maxRecDepth 40000
set_option maxHeartbeats 2000000

/-- C7: `validateQueueMessage` rejects an envelope (returns a structured
validation error) if and only if one of its identifiers is missing or fails the
id-validity predicate, its content is empty after trimming or longer than 1000
characters, or sender equals receiver; and at the boundary a content of length
exactly 1000 is accepted, while length 1001 is rejected. -/
theorem c7_validate_characterization :
    (∀ (isValidId : String → Bool) (q : QueueMessageData),
      (validateQueueMessage isValidId q).isSome ↔
        (q.autoMessageId = "" ∨ isValidId q.autoMessageId = false ∨
         q.senderId = "" ∨ isValidId q.senderId = false ∨
         q.receiverId = "" ∨ isValidId q.receiverId = false ∨
         jsTrim q.content = "" ∨ q.content.length > 1000 ∨
         q.senderId = q.receiverId)) ∧
    validateQueueMessage (fun _ => true)
      { autoMessageId := "a", senderId := "s", receiverId := "r",
        content := String.mk (List.replicate 1000 'x'),
        originalSendDate := 0, queuedAt := 0 } = none ∧
    (validateQueueMessage (fun _ => true)
      { autoMessageId := "a", senderId := "s", receiverId := "r",
        content := String.mk (List.replicate 1001 'x'),
        originalSendDate := 0, queuedAt := 0 }).isSome = true := by
  refine ⟨fun isValidId q => ?_, by decide, by decide⟩
  have hA : (jsTrim q.content).length = 0 ↔ jsTrim q.content = "" :=
    string_length_eq_zero_iff (jsTrim q.content)
  have hB : q.content = "" → jsTrim q.content = "" := by
    intro h
    rw [h]
    rfl
  constructor
  · intro hsome
    by_contra hnot
    push_neg at hnot
    obtain ⟨n1, n2, n3, n4, n5, n6, n7, n8, n9⟩ := hnot
    have e1 : ¬(q.autoMessageId = "" ∨ ¬ isValidId q.autoMessageId = true) := by
      push_neg
      exact ⟨n1, by simpa using n2⟩
    have e2 : ¬(q.senderId = "" ∨ ¬ isValidId q.senderId = true) := by
      push_neg
      exact ⟨n3, by simpa using n4⟩
    have e3 : ¬(q.receiverId = "" ∨ ¬ isValidId q.receiverId = true) := by
      push_neg
      exact ⟨n5, by simpa using n6⟩
    have e4 : ¬(q.content = "" ∨ (jsTrim q.content).length = 0) := by
      push_neg
      exact ⟨fun h => n7 (hB h), fun h => n7 (hA.mp h)⟩
    have e5 : ¬(q.content.length > 1000) := by omega
    have hnone : validateQueueMessage isValidId q = none := by
      unfold validateQueueMessage
      rw [if_neg e1, if_neg e2, if_neg e3, if_neg e4, if_neg e5, if_neg n9]
    rw [hnone] at hsome
    simp at hsome
  · intro hrhs
    cases hval : validateQueueMessage isValidId q with
    | some e => simp
    | none =>
      exfalso
      unfold validateQueueMessage at hval
      split_ifs at hval with c1 c2 c3 c4 c5 c6
      rw [not_or] at c1 c2 c3 c4
      rcases hrhs with h | h | h | h | h | h | h | h | h
      · exact c1.1 h
      · exact c1.2 (by simp [h])
      · exact c2.1 h
      · exact c2.2 (by simp [h])
      · exact c3.1 h
      · exact c3.2 (by simp [h])
      · exact c4.2 (hA.mpr h)
      · exact c5 h
      · exact c6 h

/-! ### C6 — the pairing walk of the planner -/

/-- The pair walk produces `⌊n/2⌋` pairs. -/
theorem pairWalk_length {α : Type} : ∀ (l : List α), (pairWalk l).length = l.length / 2
  | [] => by simp [pairWalk]
  | [_] => by simp [pairWalk]
  | _ :: _ :: rest => by
    simp only [pairWalk, List.length_cons, pairWalk_length rest]
    omega

/-- The users of the pair walk are the whole list when its length is even,
and the list without its last element when odd. -/
theorem flattenPairs_pairWalk {α : Type} : ∀ (l : List α),
    flattenPairs (pairWalk l) = if l.length % 2 = 0 then l else l.dropLast
  | [] => by simp [pairWalk, flattenPairs]
  | [a] => by simp [pairWalk, flattenPairs]
  | a :: b :: rest => by
    have ih := flattenPairs_pairWalk rest
    have hstep : flattenPairs (pairWalk (a :: b :: rest)) =
        a :: b :: flattenPairs (pairWalk rest) := by
      simp [pairWalk, flattenPairs]
    by_cases h : rest.length % 2 = 0
    · have hl : (a :: b :: rest).length % 2 = 0 := by
        simp only [List.length_cons]
        omega
      rw [hstep, ih, if_pos h, if_pos hl]
    · have hl : ¬((a :: b :: rest).length % 2 = 0) := by
        simp only [List.length_cons]
        omega
      have hne : rest ≠ [] := by
        intro hnil
        rw [hnil] at h
        simp at h
      rw [hstep, ih, if_neg h, if_neg hl]
      cases rest with
      | nil => exact absurd rfl hne
      | cons c rest2 => simp [List.dropLast_cons₂]

/-- The k-th pair of the walk is `(l[2k], l[2k+1])`. -/
theorem pairWalk_getElem? {α : Type} : ∀ (l : List α) (k : Nat) (a b : α),
    l[2 * k]? = some a → l[2 * k + 1]? = some b → (pairWalk l)[k]? = some (a, b)
  | [], _, _, _ => by
    intro h1 _
    simp at h1
  | [x], k, a, b => by
    intro _ h2
    rcases List.getElem?_eq_some.mp h2 with ⟨hlt, _⟩
    simp only [List.length_singleton] at hlt
    exfalso
    omega
  | x :: y :: rest, 0, a, b => by
    intro h1 h2
    simp only [Nat.mul_zero, Nat.zero_add, List.getElem?_cons_zero, Option.some.injEq] at h1
    simp only [Nat.mul_zero, Nat.zero_add, List.getElem?_cons_succ,
      List.getElem?_cons_zero, Option.some.injEq] at h2
    simp [pairWalk, h1, h2]
  | x :: y :: rest, k + 1, a, b => by
    intro h1 h2
    have e1 : 2 * (k + 1) = 2 * k + 1 + 1 := by omega
    have e2 : 2 * (k + 1) + 1 = 2 * k + 1 + 1 + 1 := by omega
    rw [e1, List.getElem?_cons_succ, List.getElem?_cons_succ] at h1
    rw [e2, List.getElem?_cons_succ, List.getElem?_cons_succ] at h2
    have hrec := pairWalk_getElem? rest k a b h1 h2
    simpa [pairWalk] using hrec

/-- C6: the planner pairing walks the shuffled list as pairs
`(users[2k], users[2k+1])` with the first element the sender, producing exactly
`⌊n/2⌋` pairs; with even `n` every user appears in exactly one pair; with odd
`n` exactly one user — the last after shuffling — is unpaired; and with `n < 2`
the pairing is empty and `planAutomaticMessages` returns 0. -/
theorem c6_pairing (shuffle : List String → List String) (users : List String)
    (hperm : (shuffle users).Perm users) (hnd : users.Nodup) :
    ((createUserPairs shuffle users).length = users.length / 2) ∧
    (∀ k a b, (shuffle users)[2 * k]? = some a → (shuffle users)[2 * k + 1]? = some b →
      (createUserPairs shuffle users)[k]? = some (a, b)) ∧
    (users.length % 2 = 0 →
      ∀ u ∈ users, (flattenPairs (createUserPairs shuffle users)).count u = 1) ∧
    (users.length % 2 = 1 →
      ∀ u0, (shuffle users).getLast? = some u0 →
        u0 ∈ users ∧ u0 ∉ flattenPairs (createUserPairs shuffle users) ∧
        ∀ u ∈ users, u ∉ flattenPairs (createUserPairs shuffle users) → u = u0) ∧
    (users.length < 2 →
      createUserPairs shuffle users = [] ∧ planAutomaticMessages shuffle users = 0) := by
  have hlen : (shuffle users).length = users.length := hperm.length_eq
  have hpairsSmall : users.length < 2 → createUserPairs shuffle users = [] := by
    intro hs
    simp [createUserPairs, hs]
  have hpairsBig : ¬ users.length < 2 →
      createUserPairs shuffle users = pairWalk (shuffle users) := by
    intro hs
    simp [createUserPairs, hs]
  refine ⟨?_, ?_, ?_, ?_, ?_⟩
  · by_cases hs : users.length < 2
    · rw [hpairsSmall hs]
      simp only [List.length_nil]
      omega
    · rw [hpairsBig hs, pairWalk_length, hlen]
  · intro k a b h1 h2
    by_cases hs : users.length < 2
    · exfalso
      rcases List.getElem?_eq_some.mp h2 with ⟨hlt, _⟩
      rw [hlen] at hlt
      omega
    · rw [hpairsBig hs]
      exact pairWalk_getElem? (shuffle users) k a b h1 h2
  · intro heven u hu
    by_cases hs : users.length < 2
    · have h0 : users.length = 0 := by omega
      rw [List.length_eq_zero.mp h0] at hu
      simp at hu
    · have hflat : flattenPairs (createUserPairs shuffle users) = shuffle users := by
        rw [hpairsBig hs, flattenPairs_pairWalk, if_pos (by rw [hlen]; omega)]
      rw [hflat]
      exact List.count_eq_one_of_mem (hperm.nodup_iff.mpr hnd) (hperm.mem_iff.mpr hu)
  · intro hodd u0 hg
    have hlast : (shuffle users).dropLast ++ [u0] = shuffle users :=
      List.dropLast_append_getLast? u0 (Option.mem_def.mpr hg)
    have hu0shuf : u0 ∈ shuffle users := by
      rw [← hlast]
      exact List.mem_append_right _ (List.mem_singleton_self u0)
    have hflat : flattenPairs (createUserPairs shuffle users) =
        (shuffle users).dropLast := by
      by_cases hs : users.length < 2
      · rw [hpairsSmall hs]
        have h1 : users.length = 1 := by omega
        have hsl : (shuffle users).length = 1 := by rw [hlen, h1]
        rcases List.length_eq_one.mp hsl with ⟨x, hx⟩
        rw [hx]
        rfl
      · rw [hpairsBig hs, flattenPairs_pairWalk, if_neg (by rw [hlen]; omega)]
    refine ⟨hperm.mem_iff.mp hu0shuf, ?_, ?_⟩
    · rw [hflat]
      have hndshuf : (shuffle users).Nodup := hperm.nodup_iff.mpr hnd
      rw [← hlast] at hndshuf
      intro hmem
      exact List.disjoint_of_nodup_append hndshuf hmem (List.mem_singleton_self u0)
    · intro u hu hnotflat
      rw [hflat] at hnotflat
      have hushuf : u ∈ shuffle users := hperm.mem_iff.mpr hu
      rw [← hlast] at hushuf
      rcases List.mem_append.mp hushuf with h | h
      · exact absurd h hnotflat
      · exact List.mem_singleton.mp h
  · intro hs
    refine ⟨hpairsSmall hs, ?_⟩
    simp [planAutomaticMessages, hs]

/-- C6 witness: three users shuffled by the identity yield one pair and leave
the last user `"u3"` unpaired. -/
theorem c6_pairing_witness :
    (createUserPairs (fun l => l) ["u1", "u2", "u3"]).length =
      (["u1", "u2", "u3"] : List String).length / 2 ∧
    "u3" ∉ flattenPairs (createUserPairs (fun l => l) ["u1", "u2", "u3"]) := by
  have h := c6_pairing (fun l => l) ["u1", "u2", "u3"] (List.Perm.refl _) (by decide)
  exact ⟨h.1, (h.2.2.2.1 (by decide) "u3" (by decide)).2.1⟩
